import Mathlib

/-!
Shallow embedding of the snippet-helper sources of `canonical/rust-best-practices`.

The repository consists of mdbook snippet helpers.  Its core is a unified
error-handling pattern: a `Result`/`Error` pair with a blanket conversion
`impl<E: std::error::Error> From<E> for Error` absorbing any error type into
an `Unknown` catch-all variant.  Two sibling definitions of `Error` exist:
a base version in `src/snippet_helpers/error_handling.rs` (five variants)
and a site version in `src/site/src/snippet_helpers/error_handling.rs`
(three variants).  The stub call-site types (`Arbitrary`, `FooBuilder`,
`Responder`, `Log`) are embedded from their respective files.
-/

/-- Models the capability `std::error::Error`: a type whose values can
describe themselves.  The observable interface of a trait object
`dyn std::error::Error` in these snippets is exactly this description. -/
class StdError (E : Type) where
  description : E → String

/-- Models `Box<dyn std::error::Error>`: an owned, type-erased error value,
observable only through the error capability (its description). -/
structure BoxDynError where
  description : String

/-- Models `Box::new(err)` at type `Box<dyn std::error::Error>`: the boxed
trait object retains `err`, exposing its `std::error::Error` capability. -/
def boxNew {E : Type} [StdError E] (err : E) : BoxDynError :=
  ⟨StdError.description err⟩

namespace ErrorHandling

/-- The base unified error type, from `src/snippet_helpers/error_handling.rs`
lines 3–12:
`enum Error { Invalid, NetworkUnavailable, MalformedEnvUrl { env_var, source }, Unsupported, Unknown(Box<dyn Error>) }`. -/
inductive Error : Type where
  | Invalid : Error
  | NetworkUnavailable : Error
  | MalformedEnvUrl (env_var : String) (source : BoxDynError) : Error
  | Unsupported : Error
  | Unknown (cause : BoxDynError) : Error

/-- `type Result<T> = std::result::Result<T, Error>;` (line 1 of the file). -/
abbrev Result (T : Type) : Type := Except Error T

/-- Models `impl<E: std::error::Error + 'static> From<E> for Error`
(lines 14–21): `fn from(err: E) -> Self { Error::Unknown(Box::new(err)) }`. -/
def Error.fromErr {E : Type} [StdError E] (err : E) : Error :=
  Error.Unknown (boxNew err)

/-- Models the reflexive conversion `impl<T> From<T> for T` from Rust core,
which is the conversion the `?` operator applies when an `Error` is
propagated inside a function that itself returns `Result<_, Error>`.
The blanket `impl<E: std::error::Error> From<E> for Error` does not apply to
`Error` itself (`Error` implements no `std::error::Error`), so propagation
uses this identity. -/
def Error.fromSelf (e : Error) : Error := e

/-- Models the `?` early-return propagation idiom on the unified `Result`:
on `Err(e)` return `Err(From::from(e))` (here the identity `fromSelf`),
on `Ok(a)` continue with the rest of the function body. -/
def propagate {A B : Type} (r : Result A) (k : A → Result B) : Result B :=
  match r with
  | .error e => .error (Error.fromSelf e)
  | .ok a => k a

/-- True exactly on the `MalformedEnvUrl` variant. -/
def Error.isMalformedEnvUrl : Error → Bool
  | .MalformedEnvUrl _ _ => true
  | _ => false

/-- True exactly on the `Unknown` variant. -/
def Error.isUnknown : Error → Bool
  | .Unknown _ => true
  | _ => false

/-- Models a Rust `match` arm `Error::MalformedEnvUrl { env_var, source } => (env_var, source)`:
matching on the value recovers the two fields, and no other variant matches. -/
def Error.matchMalformedEnvUrl : Error → Option (String × BoxDynError)
  | .MalformedEnvUrl env_var source => some (env_var, source)
  | _ => none

end ErrorHandling

namespace Site

/-- The site unified error type, from
`src/site/src/snippet_helpers/error_handling.rs` lines 3–7:
`enum Error { Invalid, NetworkUnavailable, Unknown(Box<dyn Error>) }`. -/
inductive Error : Type where
  | Invalid : Error
  | NetworkUnavailable : Error
  | Unknown (cause : BoxDynError) : Error

/-- `type Result<T> = std::result::Result<T, Error>;` (line 1 of the file). -/
abbrev Result (T : Type) : Type := Except Error T

/-- Models `impl<E: std::error::Error + 'static> From<E> for Error`
(lines 9–16 of the site file). -/
def Error.fromErr {E : Type} [StdError E] (err : E) : Error :=
  Error.Unknown (boxNew err)

/-- True exactly on the `Unknown` variant. -/
def Error.isUnknown : Error → Bool
  | .Unknown _ => true
  | _ => false

/-- The `?` propagation idiom on the site `Result`, with the identity
conversion `impl<T> From<T> for T` applied to the propagated error. -/
def propagate {A B : Type} (r : Result A) (k : A → Result B) : Result B :=
  match r with
  | .error e => .error e
  | .ok a => k a

end Site

/-- A concrete example error type (a structure holding the text that failed
to parse), standing for one external dependency error; implements the error
capability.  Used to witness the generic conversion at a concrete type. -/
structure ParseError where
  input : String

instance : StdError ParseError where
  description p := String.append "invalid value: " p.input

/-- A second, structurally unrelated example error type (a payload-free
enumeration), standing for another external dependency error. -/
inductive TimeoutError : Type where
  | connectTimeout : TimeoutError
  | readTimeout : TimeoutError

instance : StdError TimeoutError where
  description
    | .connectTimeout => "connect timed out"
    | .readTimeout => "read timed out"

namespace FunctionDiscipline

/-- The hidden stub from `src/snippet_helpers/function_discipline.rs`
lines 3–25: `struct Arbitrary;` with chained builder methods. -/
structure Arbitrary : Type where

def Arbitrary.new : Arbitrary := {}

def Arbitrary.builder : Arbitrary := {}

/-- `fn foo(self, _: &str) -> Self { self }` -/
def Arbitrary.foo (self : Arbitrary) (_ : String) : Arbitrary := self

/-- `fn bar(self, _: &str) -> Self { self }` -/
def Arbitrary.bar (self : Arbitrary) (_ : String) : Arbitrary := self

/-- `fn build(self) -> Result<Self> { Ok(self) }` — the unified `Result`
comes from the included base `error_handling.rs`. -/
def Arbitrary.build (self : Arbitrary) : ErrorHandling.Result Arbitrary :=
  .ok self

/-- `pub struct Foo;` from `mod some_crate` (lines 27–54). -/
structure Foo : Type where

/-- `pub struct FooBuilder;` -/
structure FooBuilder : Type where

def Foo.builder : FooBuilder := {}

def FooBuilder.new : FooBuilder := {}

/-- `pub fn foo(self, _: &'static str) -> Self { self }` -/
def FooBuilder.foo (self : FooBuilder) (_ : String) : FooBuilder := self

/-- `pub fn bar(self, _: &'static str) -> Self { self }` -/
def FooBuilder.bar (self : FooBuilder) (_ : String) : FooBuilder := self

/-- `pub fn build(self) -> std::result::Result<Foo, Box<dyn std::error::Error>> { Ok(Foo) }` -/
def FooBuilder.build (_ : FooBuilder) : Except BoxDynError Foo :=
  .ok {}

end FunctionDiscipline

namespace CodeDiscipline

/-- The stub from `src/site/src/snippet_helpers/code_discipline.rs`
lines 3–23: `struct Arbitrary;` with fluent methods. -/
structure Arbitrary : Type where

def Arbitrary.new : Arbitrary := {}

/-- `fn something_else(self) -> Self { self }` -/
def Arbitrary.something_else (self : Arbitrary) : Arbitrary := self

/-- `fn another_thing(self) -> Self { self }` -/
def Arbitrary.another_thing (self : Arbitrary) : Arbitrary := self

/-- `fn chained_with_something_else(self) -> Result<Self> { Ok(self) }` —
the unified `Result` comes from the included site `error_handling.rs`. -/
def Arbitrary.chained_with_something_else (self : Arbitrary) : Site.Result Arbitrary :=
  .ok self

/-- `fn format_as(self, fmt: &str) -> String { String::new() }` — note the
declared return type is a plain `String`, not the unified `Result`. -/
def Arbitrary.format_as (_ : Arbitrary) (_fmt : String) : String :=
  ""

/-- `fn some_long_computation() -> Result<Arbitrary> { Ok(Arbitrary) }` -/
def some_long_computation : Site.Result Arbitrary :=
  .ok {}

/-- `fn some_other_long_computation() -> Arbitrary { Arbitrary }` -/
def some_other_long_computation : Arbitrary := {}

/-- `struct Input;` (line 32). -/
structure Input : Type where

/-- The capability-style interface from lines 33–38:
`trait Responder { type Response; type Err; fn respond(&self, input: Input) -> std::result::Result<Self::Response, Self::Err>; }`.
An implementor is a carrier type together with its two chosen associated
types and a `respond` function; the trait fixes neither associated type. -/
structure Responder : Type 1 where
  Impl : Type
  Response : Type
  Err : Type
  respond : Impl → Input → Except Err Response

/-- An implementor choosing `Err := Empty` (any type is admissible for the
free associated type `type Err;`). -/
def emptyErrResponder : Responder :=
  ⟨Unit, Unit, Empty, fun _ _ => .ok ()⟩

/-- An implementor choosing the unified site `Error` for `Err`. -/
def errorResponder : Responder :=
  ⟨Unit, Unit, Site.Error, fun _ _ => .error .Invalid⟩

/-- `struct Log { log_file_path: String }` (lines 48–50). -/
structure Log : Type where
  log_file_path : String

/-- `async fn transmit_log(&self, _: &str) -> Result<usize> { Ok(0) }`
(lines 52–56); the `async` wrapper is flavor and is dropped: the body is a
pure value. -/
def Log.transmit_log (_ : Log) (_ : String) : Site.Result Nat :=
  .ok 0

/-- A reflection of a Rust function's declared return type, as written in
the source signature: either the unified `Result<T>` alias or a plain type. -/
inductive RetSig : Type where
  | unifiedResult (t : String) : RetSig
  | plain (t : String) : RetSig

/-- True exactly when the declared return type is the unified `Result<T>`. -/
def RetSig.isUnifiedResult : RetSig → Bool
  | .unifiedResult _ => true
  | .plain _ => false

/-- Declared return type of `Arbitrary::chained_with_something_else`:
`Result<Self>`. -/
def chained_with_something_else_sig : RetSig := .unifiedResult "Arbitrary"

/-- Declared return type of `some_long_computation`: `Result<Arbitrary>`. -/
def some_long_computation_sig : RetSig := .unifiedResult "Arbitrary"

/-- Declared return type of `Arbitrary::format_as`: `String` (not `Result`). -/
def format_as_sig : RetSig := .plain "String"

/-- Declared return type of the builder step `Arbitrary::build` in
`src/snippet_helpers/function_discipline.rs`: `Result<Self>`. -/
def build_sig : RetSig := .unifiedResult "Arbitrary"

end CodeDiscipline

/-- Claim C1: for every value `v` of every type `E` implementing the
`std::error::Error` capability, the generic conversion `From<E> for Error`
(in both sibling error types) yields the `Unknown` variant, retaining a
cause whose description equals `v`'s description. -/
theorem from_error_yields_unknown_retaining_description (E : Type) [StdError E] (v : E) :
    ErrorHandling.Error.fromErr v = ErrorHandling.Error.Unknown (boxNew v) ∧
    Site.Error.fromErr v = Site.Error.Unknown (boxNew v) ∧
    (boxNew v).description = StdError.description v :=
  ⟨rfl, rfl, rfl⟩

/-- Witness for C1 at the concrete error value `ParseError.mk "x"`. -/
theorem from_error_yields_unknown_retaining_description_witness :
    ErrorHandling.Error.fromErr (ParseError.mk "x") = ErrorHandling.Error.Unknown (boxNew (ParseError.mk "x")) ∧
    Site.Error.fromErr (ParseError.mk "x") = Site.Error.Unknown (boxNew (ParseError.mk "x")) ∧
    (boxNew (ParseError.mk "x")).description = StdError.description (ParseError.mk "x") :=
  from_error_yields_unknown_retaining_description ParseError (ParseError.mk "x")

/-- Claim C2: when an inner fallible call returns `Err(Invalid)` and the
outer call forwards the failure with the `?` idiom, the top level observes
exactly `Invalid`; the conversion applied during propagation of an `Error`
inside `Result<_, Error>` is the reflexive `From<T> for T` (the identity),
never the blanket conversion into `Unknown`. -/
theorem propagation_preserves_invalid {A B : Type} (inner : ErrorHandling.Result A)
    (k : A → ErrorHandling.Result B) (h : inner = Except.error ErrorHandling.Error.Invalid) :
    ErrorHandling.propagate inner k = Except.error ErrorHandling.Error.Invalid ∧
    (∀ e : ErrorHandling.Error, ErrorHandling.Error.fromSelf e = e) := by
  subst h
  exact ⟨rfl, fun _ => rfl⟩

/-- Witness for C2: a concrete inner call returning `Invalid`, forwarded by
a concrete outer continuation. -/
theorem propagation_preserves_invalid_witness :
    ErrorHandling.propagate (Except.error ErrorHandling.Error.Invalid)
      (fun _ : Unit => Except.ok ()) = Except.error ErrorHandling.Error.Invalid ∧
    (∀ e : ErrorHandling.Error, ErrorHandling.Error.fromSelf e = e) :=
  propagation_preserves_invalid (Except.error ErrorHandling.Error.Invalid)
    (fun _ : Unit => Except.ok ()) rfl

/-- Claim C3: constructing `Error::MalformedEnvUrl` with key `K` and boxed
cause `C` and immediately matching on the result recovers exactly `K` and a
value whose description equals `C`'s description. -/
theorem malformed_env_url_roundtrip (K : String) (E : Type) [StdError E] (C : E) :
    (ErrorHandling.Error.MalformedEnvUrl K (boxNew C)).matchMalformedEnvUrl = some (K, boxNew C) ∧
    (boxNew C).description = StdError.description C :=
  ⟨rfl, rfl⟩

/-- Witness for C3 at key `"DB_URL"` and cause `TimeoutError.connectTimeout`. -/
theorem malformed_env_url_roundtrip_witness :
    (ErrorHandling.Error.MalformedEnvUrl "DB_URL" (boxNew TimeoutError.connectTimeout)).matchMalformedEnvUrl
      = some ("DB_URL", boxNew TimeoutError.connectTimeout) ∧
    (boxNew TimeoutError.connectTimeout).description = StdError.description TimeoutError.connectTimeout :=
  malformed_env_url_roundtrip "DB_URL" TimeoutError TimeoutError.connectTimeout

/-- Claim C4: every value of the `MalformedEnvUrl` variant carries both the
offending configuration key name and the parse cause; matching recovers the
two together, never one without the other. -/
theorem malformed_env_url_has_both_fields (e : ErrorHandling.Error)
    (h : e.isMalformedEnvUrl = true) :
    ∃ k s, e = ErrorHandling.Error.MalformedEnvUrl k s ∧
      e.matchMalformedEnvUrl = some (k, s) := by
  cases e with
  | MalformedEnvUrl k s => exact ⟨k, s, rfl, rfl⟩
  | Invalid => exact Bool.noConfusion h
  | NetworkUnavailable => exact Bool.noConfusion h
  | Unsupported => exact Bool.noConfusion h
  | Unknown c => exact Bool.noConfusion h

/-- Witness for C4 at a concrete `MalformedEnvUrl` value. -/
theorem malformed_env_url_has_both_fields_witness :
    (ErrorHandling.Error.MalformedEnvUrl "K" (BoxDynError.mk "bad url")).isMalformedEnvUrl = true ∧
    ∃ k s, ErrorHandling.Error.MalformedEnvUrl "K" (BoxDynError.mk "bad url")
        = ErrorHandling.Error.MalformedEnvUrl k s ∧
      (ErrorHandling.Error.MalformedEnvUrl "K" (BoxDynError.mk "bad url")).matchMalformedEnvUrl
        = some (k, s) :=
  ⟨rfl, malformed_env_url_has_both_fields (ErrorHandling.Error.MalformedEnvUrl "K" (BoxDynError.mk "bad url")) rfl⟩

/-- Claim C5: the chained builder sequence `new → foo("a") → bar("b") → build()`
succeeds and returns the built value (for both `FooBuilder` and the hidden
`Arbitrary` builder), and `build` is total on every builder state: it always
returns an `Ok` or an `Err` value of the declared result type, never a
panic (the source `build` has no precondition and always returns `Ok`). -/
theorem builder_chain_succeeds :
    (((FunctionDiscipline.FooBuilder.new.foo "a").bar "b").build = Except.ok FunctionDiscipline.Foo.mk) ∧
    (((FunctionDiscipline.Arbitrary.new.foo "a").bar "b").build = Except.ok FunctionDiscipline.Arbitrary.new) ∧
    (∀ b : FunctionDiscipline.FooBuilder,
      (∃ v, b.build = Except.ok v) ∨ (∃ e, b.build = Except.error e)) ∧
    (∀ a : FunctionDiscipline.Arbitrary,
      (∃ v, a.build = Except.ok v) ∨ (∃ e, a.build = Except.error e)) :=
  ⟨rfl, rfl, fun _ => Or.inl ⟨FunctionDiscipline.Foo.mk, rfl⟩, fun a => Or.inl ⟨a, rfl⟩⟩

/-- Claim C6: the catch-all conversion is generic: for two structurally
unrelated error types (`ParseError`, a structure, and `TimeoutError`, an
enumeration), the one conversion rule `Error.fromErr` sends every value of
each into the `Unknown` variant. -/
theorem catch_all_generic_over_unrelated_types (p : ParseError) (t : TimeoutError) :
    (ErrorHandling.Error.fromErr p).isUnknown = true ∧
    (ErrorHandling.Error.fromErr t).isUnknown = true ∧
    ErrorHandling.Error.fromErr p = ErrorHandling.Error.Unknown (boxNew p) ∧
    ErrorHandling.Error.fromErr t = ErrorHandling.Error.Unknown (boxNew t) :=
  ⟨rfl, rfl, rfl, rfl⟩

/-- Witness for C6 at concrete values of the two unrelated types. -/
theorem catch_all_generic_over_unrelated_types_witness :
    (ErrorHandling.Error.fromErr (ParseError.mk "9z")).isUnknown = true ∧
    (ErrorHandling.Error.fromErr TimeoutError.readTimeout).isUnknown = true ∧
    ErrorHandling.Error.fromErr (ParseError.mk "9z") = ErrorHandling.Error.Unknown (boxNew (ParseError.mk "9z")) ∧
    ErrorHandling.Error.fromErr TimeoutError.readTimeout = ErrorHandling.Error.Unknown (boxNew TimeoutError.readTimeout) :=
  catch_all_generic_over_unrelated_types (ParseError.mk "9z") TimeoutError.readTimeout

/-- Counterexample to C7 as stated: the `Responder` trait leaves `type Err;`
a free associated type, so an implementor may choose a failure type other
than the unified `Error`; `emptyErrResponder` chooses `Empty`, which is not
the unified error type. -/
theorem responder_err_not_fixed_to_unified_error :
    CodeDiscipline.emptyErrResponder.Err ≠ Site.Error := by
  intro h
  have h2 : Empty = Site.Error := h
  exact (cast h2.symm Site.Error.Invalid).elim

/-- Claim C7 (amended): the responder interface's failure type is a
per-implementor associated type; choosing the unified `Error` is admissible
(witnessed by an implementor), and every implementor's `respond` returns
either a `Response` value or a value of that implementor's chosen `Err`
type. -/
theorem responder_err_is_free_assoc_type :
    (∃ R : CodeDiscipline.Responder, R.Err = Site.Error) ∧
    ∀ (R : CodeDiscipline.Responder) (s : R.Impl) (i : CodeDiscipline.Input),
      (∃ v, R.respond s i = Except.ok v) ∨ (∃ e, R.respond s i = Except.error e) :=
  ⟨⟨CodeDiscipline.errorResponder, rfl⟩, fun R s i =>
    match R.respond s i with
    | .ok v => Or.inl ⟨v, rfl⟩
    | .error e => Or.inr ⟨e, rfl⟩⟩

/-- Counterexample to C8 as stated: `Arbitrary::format_as` is declared with
return type `String`, not the unified `Result<T>`; evaluating it yields a
plain string. -/
theorem format_as_returns_plain_string :
    CodeDiscipline.format_as_sig = CodeDiscipline.RetSig.plain "String" ∧
    CodeDiscipline.format_as_sig.isUnifiedResult = false ∧
    CodeDiscipline.Arbitrary.format_as CodeDiscipline.Arbitrary.new "json" = "" :=
  ⟨rfl, rfl, rfl⟩

/-- Claim C8 (amended): the chained builder step (`Arbitrary::build`,
`chained_with_something_else`) and `some_long_computation` are declared with
the unified `Result<T>` return type and compose with early-return
propagation; `format_as` is declared with the plain `String` return type. -/
theorem stub_ops_return_unified_result :
    CodeDiscipline.chained_with_something_else_sig.isUnifiedResult = true ∧
    CodeDiscipline.some_long_computation_sig.isUnifiedResult = true ∧
    CodeDiscipline.build_sig.isUnifiedResult = true ∧
    CodeDiscipline.format_as_sig = CodeDiscipline.RetSig.plain "String" ∧
    Site.propagate CodeDiscipline.some_long_computation
      (fun a => a.chained_with_something_else) = Except.ok CodeDiscipline.Arbitrary.new :=
  ⟨rfl, rfl, rfl, rfl, rfl⟩

/-- Claim C9: every fallible stub operation unconditionally succeeds:
`chained_with_something_else` returns `Ok` of its receiver,
`some_long_computation` returns `Ok`, `Log::transmit_log` returns `Ok(0)`,
and `Arbitrary::build` returns `Ok` of its receiver; no stub code path
constructs an `Error` value. -/
theorem stub_fallible_ops_always_succeed (x : CodeDiscipline.Arbitrary)
    (l : CodeDiscipline.Log) (s : String) (y : FunctionDiscipline.Arbitrary) :
    x.chained_with_something_else = Except.ok x ∧
    CodeDiscipline.some_long_computation = Except.ok CodeDiscipline.Arbitrary.new ∧
    l.transmit_log s = Except.ok 0 ∧
    y.build = Except.ok y :=
  ⟨rfl, rfl, rfl, rfl⟩

/-- Witness for C9 at concrete receivers and input. -/
theorem stub_fallible_ops_always_succeed_witness :
    CodeDiscipline.Arbitrary.chained_with_something_else CodeDiscipline.Arbitrary.new
      = Except.ok CodeDiscipline.Arbitrary.new ∧
    CodeDiscipline.some_long_computation = Except.ok CodeDiscipline.Arbitrary.new ∧
    (CodeDiscipline.Log.mk "a.log").transmit_log "line" = Except.ok 0 ∧
    FunctionDiscipline.Arbitrary.build FunctionDiscipline.Arbitrary.new
      = Except.ok FunctionDiscipline.Arbitrary.new :=
  stub_fallible_ops_always_succeed CodeDiscipline.Arbitrary.new
    (CodeDiscipline.Log.mk "a.log") "line" FunctionDiscipline.Arbitrary.new

/-- Claim C10: the builder steps are identity operations insensitive to
their arguments: `foo(a)`, `bar(b)`, `something_else()` and
`another_thing()` return their receiver unchanged, so the chain
`new().foo(a).bar(b).build()` equals `new().build()` for all `a`, `b`. -/
theorem builder_steps_identity (a b : String)
    (x : FunctionDiscipline.Arbitrary) (y : CodeDiscipline.Arbitrary) :
    x.foo a = x ∧ x.bar b = x ∧
    y.something_else = y ∧ y.another_thing = y ∧
    ((FunctionDiscipline.Arbitrary.new.foo a).bar b).build
      = FunctionDiscipline.Arbitrary.new.build :=
  ⟨rfl, rfl, rfl, rfl, rfl⟩

/-- Witness for C10 at concrete arguments and receivers. -/
theorem builder_steps_identity_witness :
    FunctionDiscipline.Arbitrary.foo FunctionDiscipline.Arbitrary.new "a"
      = FunctionDiscipline.Arbitrary.new ∧
    FunctionDiscipline.Arbitrary.bar FunctionDiscipline.Arbitrary.new "b"
      = FunctionDiscipline.Arbitrary.new ∧
    CodeDiscipline.Arbitrary.something_else CodeDiscipline.Arbitrary.new
      = CodeDiscipline.Arbitrary.new ∧
    CodeDiscipline.Arbitrary.another_thing CodeDiscipline.Arbitrary.new
      = CodeDiscipline.Arbitrary.new ∧
    ((FunctionDiscipline.Arbitrary.new.foo "a").bar "b").build
      = FunctionDiscipline.Arbitrary.new.build :=
  builder_steps_identity "a" "b" FunctionDiscipline.Arbitrary.new CodeDiscipline.Arbitrary.new
